import Mathlib

/-!
Shallow embedding of the valuation engine of src/dcf.py.

Financial-statement dataframes are modelled as association lists from a row
label to the row's values (most recent column first), with exact rationals in
place of floats. Each definition mirrors one line (or one small group of
lines) of the source; the only real-valued quantity is the FCF CAGR, whose
ninth root is modelled with Real.rpow. Python's truthiness tests on floats
(`if x`) are modelled as `x ≠ 0`, and a read of a variable that Python would
leave unbound is modelled by the error branch of an `Except` pipeline.
-/

namespace DCF

/-- A financial-statement dataframe: rows addressed by label, each row a list
of values with the most recent column first (src/dcf.py lines 107-109). -/
def Frame : Type := List (String × List ℚ)

/-- Line 111-112: `safe_get(df, label, default)` returns `df.loc[label].values[0]`
when the label is present and the default otherwise. -/
def safe_get (df : Frame) (label : String) (default : ℚ) : ℚ :=
  match List.lookup label df with
  | some vs => vs.headD 0
  | none => default

/-- Line 115: the label of the free-cash-flow row. -/
def fcf_line : String := "Free Cash Flow"

/-- Line 117: `cashflow.loc[fcf_line].head(4)[::-1]` — the four most recent
free-cash-flow values, reversed to oldest first; `none` when the row is
absent (in the source `fcf_raw` is then never assigned). -/
def fcf_raw_of (cashflow : Frame) : Option (List ℚ) :=
  (List.lookup fcf_line cashflow).map (fun vs => (vs.take 4).reverse)

/-- Line 119: `base_value = np.mean(fcf_raw.values)`. -/
def base_value (raw : List ℚ) : ℚ :=
  raw.sum / (raw.length : ℚ)

/-- Line 121: the hard-coded 17% annual growth rate. -/
def growth_rate : ℚ := 17 / 100

/-- Line 122: `fcf_forecast = [base_value * (1 + growth_rate) ** i for i in range(1, 6)]`. -/
def fcf_forecast_of (raw : List ℚ) : List ℚ :=
  (List.range 5).map (fun i => base_value raw * (1 + growth_rate) ^ (i + 1))

/-- Line 123: `terminal_value = fcf_forecast[-1] * 1.03`. -/
def terminal_value_of (raw : List ℚ) : ℚ :=
  (fcf_forecast_of raw).getLastD 0 * (103 / 100)

/-- Line 129: `fcf_cagr = ((fcf_forecast[-1] / fcf_raw.values[0]) ** (1/9)) - 1
if fcf_raw.values[0] else 0`. The fractional power is a real number. -/
noncomputable def fcf_cagr_of (raw forecast : List ℚ) : ℝ :=
  if raw.headD 0 ≠ 0 then
    Real.rpow ((forecast.getLastD 0 : ℝ) / (raw.headD 0 : ℝ)) (1 / 9) - 1
  else 0

/-- Line 135: `net_debt = total_debt - cash`. -/
def net_debt_of (total_debt cash : ℚ) : ℚ := total_debt - cash

/-- Line 141: `pretax_cod = (interest_expense / total_debt * 100) if
interest_expense and total_debt else 5`. -/
def pretax_cod_of (interest_expense total_debt : ℚ) : ℚ :=
  if interest_expense ≠ 0 ∧ total_debt ≠ 0 then interest_expense / total_debt * 100 else 5

/-- Line 142: `after_tax_cod = pretax_cod * (1 - tax_rate)`. -/
def after_tax_cod_of (pretax_cod tax_rate : ℚ) : ℚ := pretax_cod * (1 - tax_rate)

/-- Lines 145-147: cost of equity = risk-free rate / 100 + 2.9% + 2.5%. -/
def cost_of_equity_of (risk_free_rate : ℚ) : ℚ :=
  risk_free_rate / 100 + 29 / 1000 + 25 / 1000

/-- Line 150: `total_capital = total_equity + total_debt`. -/
def total_capital_of (total_equity total_debt : ℚ) : ℚ := total_equity + total_debt

/-- Line 151: `equity_weight = total_equity / total_capital if total_capital else 0`. -/
def equity_weight_of (total_equity total_capital : ℚ) : ℚ :=
  if total_capital ≠ 0 then total_equity / total_capital else 0

/-- Line 152: `debt_weight = total_debt / total_capital if total_capital else 0`. -/
def debt_weight_of (total_debt total_capital : ℚ) : ℚ :=
  if total_capital ≠ 0 then total_debt / total_capital else 0

/-- Line 153: `wacc = (equity_weight * cost_of_equity) + (debt_weight *
after_tax_cod / 100) if total_capital else 0.1`. -/
def wacc_of (total_equity total_debt cost_of_equity after_tax_cod : ℚ) : ℚ :=
  let tc := total_capital_of total_equity total_debt
  if tc ≠ 0 then
    equity_weight_of total_equity tc * cost_of_equity +
      debt_weight_of total_debt tc * after_tax_cod / 100
  else 1 / 10

/-- Line 156: `discount_factors = [(1 + wacc) ** i for i in range(1, 6)]`. -/
def discount_factors (wacc : ℚ) : List ℚ :=
  (List.range 5).map (fun i => (1 + wacc) ^ (i + 1))

/-- Line 157: `discounted_fcfs = np.array(fcf_forecast) / discount_factors`
(element-wise division). -/
def discounted_fcfs (forecast : List ℚ) (wacc : ℚ) : List ℚ :=
  (forecast.zip (discount_factors wacc)).map (fun p => p.1 / p.2)

/-- Line 158: `discounted_terminal = terminal_value / ((1 + wacc) ** 5)`. -/
def discounted_terminal (terminal_value wacc : ℚ) : ℚ :=
  terminal_value / (1 + wacc) ^ 5

/-- Line 159: `enterprise_value = np.sum(discounted_fcfs) + discounted_terminal`. -/
def enterprise_value_of (forecast : List ℚ) (terminal_value wacc : ℚ) : ℚ :=
  (discounted_fcfs forecast wacc).sum + discounted_terminal terminal_value wacc

/-- Line 161: `intrinsic_value = equity_value / shares_outstanding if
shares_outstanding else 0`. -/
def intrinsic_value_of (equity_value shares_outstanding : ℚ) : ℚ :=
  if shares_outstanding ≠ 0 then equity_value / shares_outstanding else 0

/-- Line 162: `upside = ((intrinsic_value - market_price) / market_price) * 100`.
No zero test on the divisor, unlike the other quotients of the pipeline. -/
def upside_of (intrinsic_value market_price : ℚ) : ℚ :=
  (intrinsic_value - market_price) / market_price * 100

/-- Line 140: tax rate looked up with the non-zero default 0.241. -/
def tax_rate_of (income_stmt : Frame) : ℚ :=
  safe_get income_stmt "Tax Rate For Calcs" (241 / 1000)

/-- The per-request inputs of the main block (lines 105-109): the fetched
market price, the user-supplied risk-free rate, and the three statements. -/
structure Inputs where
  market_price : ℚ
  risk_free_rate : ℚ
  cashflow : Frame
  income_stmt : Frame
  balance_sheet : Frame

/-- The scalar outputs of one valuation run (spec entity ValuationResult). -/
structure ValuationResult where
  fcf_forecast : List ℚ
  terminal_value : ℚ
  fcf_cagr : ℝ
  wacc : ℚ
  enterprise_value : ℚ
  equity_value : ℚ
  intrinsic_value : ℚ
  upside : ℚ

/-- Lines 114-162 in source order. When the free-cash-flow row is absent the
source sets `fcf_forecast = [0] * 5` and `terminal_value = 0` (lines 125-126)
but never binds `fcf_raw`, and line 129 then reads `fcf_raw` — a NameError,
modelled as the error branch. -/
noncomputable def runValuation (inp : Inputs) : Except String ValuationResult :=
  let fcf_raw := fcf_raw_of inp.cashflow
  let fcf_forecast :=
    match fcf_raw with
    | some raw => fcf_forecast_of raw
    | none => List.replicate 5 0
  let terminal_value :=
    match fcf_raw with
    | some raw => terminal_value_of raw
    | none => 0
  match fcf_raw with
  | none => Except.error "NameError: fcf_raw is not defined"
  | some raw =>
    let fcf_cagr := fcf_cagr_of raw fcf_forecast
    let total_equity := safe_get inp.balance_sheet "Total Equity Gross Minority Interest" 0
    let total_debt := safe_get inp.balance_sheet "Total Debt" 0
    let cash := safe_get inp.balance_sheet "Cash And Cash Equivalents" 0
    let net_debt := net_debt_of total_debt cash
    let shares_outstanding := safe_get inp.balance_sheet "Ordinary Shares Number" 0
    let interest_expense := safe_get inp.income_stmt "Interest Expense" 0
    let tax_rate := tax_rate_of inp.income_stmt
    let pretax_cod := pretax_cod_of interest_expense total_debt
    let after_tax_cod := after_tax_cod_of pretax_cod tax_rate
    let cost_of_equity := cost_of_equity_of inp.risk_free_rate
    let wacc := wacc_of total_equity total_debt cost_of_equity after_tax_cod
    let enterprise_value := enterprise_value_of fcf_forecast terminal_value wacc
    let equity_value := enterprise_value - net_debt
    let intrinsic_value := intrinsic_value_of equity_value shares_outstanding
    let upside := upside_of intrinsic_value inp.market_price
    Except.ok
      { fcf_forecast := fcf_forecast
        terminal_value := terminal_value
        fcf_cagr := fcf_cagr
        wacc := wacc
        enterprise_value := enterprise_value
        equity_value := equity_value
        intrinsic_value := intrinsic_value
        upside := upside }

/-- A concrete request whose cash-flow statement has no Free Cash Flow row. -/
def noFcfInputs : Inputs where
  market_price := 100
  risk_free_rate := 55 / 10
  cashflow := [("Operating Cash Flow", [10, 20, 30, 40])]
  income_stmt := [("Interest Expense", [5])]
  balance_sheet := [("Total Debt", [50])]

/-- C1: with no Free Cash Flow row the source sets the zero defaults of lines
125-126 but then line 129 reads the never-assigned `fcf_raw`, so the run ends
in a NameError instead of the complete zero ValuationResult the claim
requires: the pipeline does not run to completion. -/
theorem C1_missing_fcf_line_raises :
    runValuation noFcfInputs = Except.error "NameError: fcf_raw is not defined" := by
  rfl

/-- C2: WACC is the capital-weighted blend of cost of equity and after-tax
cost of debt over 100 when total capital is non-zero, the 0.10 fallback when
it is zero, and 0.082 at the concrete inputs of the claim. -/
theorem C2_wacc_formula (e d coe atcod : ℚ) :
    (e + d ≠ 0 →
      wacc_of e d coe atcod = e / (e + d) * coe + d / (e + d) * atcod / 100) ∧
    (e + d = 0 → wacc_of e d coe atcod = 1 / 10) ∧
    wacc_of 700 300 (10 / 100) 4 = 82 / 1000 := by
  refine ⟨fun h => ?_, fun h => ?_,
    by norm_num [wacc_of, total_capital_of, equity_weight_of, debt_weight_of]⟩
  · simp [wacc_of, total_capital_of, equity_weight_of, debt_weight_of, h]
  · simp [wacc_of, total_capital_of, h]

/-- Witness for C2 at total equity 700, total debt 300, cost of equity 10%,
after-tax cost of debt 4%. -/
theorem C2_wacc_formula_witness :
    wacc_of 700 300 (10 / 100) 4 =
      700 / (700 + 300) * (10 / 100) + 300 / (700 + 300) * 4 / 100 :=
  (C2_wacc_formula 700 300 (10 / 100) 4).1 (by norm_num)

/-- C3: over a four-value history the year-i forecast (i = 1..5) is the mean
times 1.17 to the i, and the terminal value is the year-5 forecast times 1.03. -/
theorem C3_forecast_formula (a b c d : ℚ) (i : ℕ) (h1 : 1 ≤ i) (h5 : i ≤ 5) :
    (fcf_forecast_of [a, b, c, d]).getD (i - 1) 0 =
      (a + b + c + d) / 4 * (117 / 100) ^ i ∧
    terminal_value_of [a, b, c, d] =
      (fcf_forecast_of [a, b, c, d]).getD 4 0 * (103 / 100) := by
  constructor
  · interval_cases i <;>
      · simp [fcf_forecast_of, base_value, growth_rate, List.range_succ]
        ring
  · simp [terminal_value_of, fcf_forecast_of, base_value, growth_rate, List.range_succ]

/-- Witness for C3 on the history [1,1,1,1] at forecast year 1. -/
theorem C3_forecast_formula_witness :
    (fcf_forecast_of [(1 : ℚ), 1, 1, 1]).getD 0 0 =
      (1 + 1 + 1 + 1) / 4 * (117 / 100) ^ 1 :=
  (C3_forecast_formula 1 1 1 1 1 (by decide) (by decide)).1

/-- C4: each discounted cash flow is the projection over (1 + WACC)^i, the
discounted terminal value is the terminal value over (1 + WACC)^5, enterprise
value is their sum, and at WACC 0.10 a year-2 value of 121 discounts to
exactly 100. -/
theorem C4_discounting_formula (f1 f2 f3 f4 f5 tv w : ℚ) :
    discounted_fcfs [f1, f2, f3, f4, f5] w =
      [f1 / (1 + w), f2 / (1 + w) ^ 2, f3 / (1 + w) ^ 3,
        f4 / (1 + w) ^ 4, f5 / (1 + w) ^ 5] ∧
    discounted_terminal tv w = tv / (1 + w) ^ 5 ∧
    enterprise_value_of [f1, f2, f3, f4, f5] tv w =
      f1 / (1 + w) + f2 / (1 + w) ^ 2 + f3 / (1 + w) ^ 3 +
        f4 / (1 + w) ^ 4 + f5 / (1 + w) ^ 5 + tv / (1 + w) ^ 5 ∧
    (discounted_fcfs [0, 121, 0, 0, 0] (1 / 10)).getD 1 0 = 100 := by
  refine ⟨?_, rfl, ?_,
    by norm_num [discounted_fcfs, discount_factors, List.range_succ]⟩
  · simp [discounted_fcfs, discount_factors, List.range_succ]
  · simp [enterprise_value_of, discounted_fcfs, discount_factors,
      discounted_terminal, List.range_succ]
    ring

/-- C5: intrinsic value per share is equity value over shares outstanding,
and 0 when shares outstanding is 0 (total, no exception). -/
theorem C5_intrinsic_value (eqv s : ℚ) :
    (s ≠ 0 → intrinsic_value_of eqv s = eqv / s) ∧
    intrinsic_value_of eqv 0 = 0 := by
  refine ⟨?_, by simp [intrinsic_value_of]⟩
  intro h
  simp [intrinsic_value_of, h]

/-- Witness for C5 at equity value 100 over 4 shares. -/
theorem C5_intrinsic_value_witness : intrinsic_value_of 100 4 = 100 / 4 :=
  (C5_intrinsic_value 100 4).1 (by norm_num)

/-- C6: pretax cost of debt is interest over debt times 100 when both are
non-zero, the constant 5 otherwise; after-tax cost of debt multiplies by one
minus the tax rate; and a missing tax-rate row defaults to 0.241. -/
theorem C6_cost_of_debt (i d p t : ℚ) (income_stmt : Frame) :
    (i ≠ 0 → d ≠ 0 → pretax_cod_of i d = i / d * 100) ∧
    (i = 0 ∨ d = 0 → pretax_cod_of i d = 5) ∧
    after_tax_cod_of p t = p * (1 - t) ∧
    (List.lookup "Tax Rate For Calcs" income_stmt = none →
      tax_rate_of income_stmt = 241 / 1000) := by
  refine ⟨?_, ?_, rfl, ?_⟩
  · intro hi hd
    simp [pretax_cod_of, hi, hd]
  · intro h
    rcases h with h | h <;> simp [pretax_cod_of, h]
  · intro h
    simp [tax_rate_of, safe_get, h]

/-- Witness for C6: ratio at interest 10 and debt 100, fallback at interest 0. -/
theorem C6_cost_of_debt_witness :
    pretax_cod_of 10 100 = 10 / 100 * 100 ∧ pretax_cod_of 0 100 = 5 :=
  ⟨(C6_cost_of_debt 10 100 0 0 []).1 (by norm_num) (by norm_num),
    (C6_cost_of_debt 0 100 0 0 []).2.1 (Or.inl rfl)⟩

/-- C7: over a four-value history the final projected value is the mean times
1.17 to the 5, and when the oldest value is non-zero the CAGR is the ninth
root of final projected value over first historical value, minus one; a zero
first value yields 0. -/
theorem C7_cagr_formula (a b c d : ℚ) :
    (fcf_forecast_of [a, b, c, d]).getLastD 0 =
      (a + b + c + d) / 4 * (117 / 100) ^ 5 ∧
    (a ≠ 0 → fcf_cagr_of [a, b, c, d] (fcf_forecast_of [a, b, c, d]) =
      Real.rpow (((fcf_forecast_of [a, b, c, d]).getLastD 0 : ℝ) / (a : ℝ))
        (1 / 9) - 1) ∧
    (a = 0 → fcf_cagr_of [a, b, c, d] (fcf_forecast_of [a, b, c, d]) = 0) := by
  refine ⟨?_, ?_, ?_⟩
  · simp [fcf_forecast_of, base_value, growth_rate, List.range_succ]
    ring
  · intro h
    simp only [fcf_cagr_of, List.headD_cons]
    rw [if_pos h]
  · intro h
    simp [fcf_cagr_of, h]

/-- Witness for C7 on the history [1,1,1,1]. -/
theorem C7_cagr_formula_witness :
    fcf_cagr_of [(1 : ℚ), 1, 1, 1] (fcf_forecast_of [(1 : ℚ), 1, 1, 1]) =
      Real.rpow (((fcf_forecast_of [(1 : ℚ), 1, 1, 1]).getLastD 0 : ℝ) / ((1 : ℚ) : ℝ))
        (1 / 9) - 1 :=
  (C7_cagr_formula 1 1 1 1).2.1 (by norm_num)

/-- C8: a lookup with a missing label yields the caller-supplied default, net
debt is total debt minus cash, and total capital is total equity plus total
debt. -/
theorem C8_capital_structure (df : Frame) (label : String) (dflt : ℚ)
    (h : List.lookup label df = none) :
    safe_get df label dflt = dflt ∧
    (∀ td cash : ℚ, net_debt_of td cash = td - cash) ∧
    (∀ te td : ℚ, total_capital_of te td = te + td) := by
  refine ⟨?_, fun td cash => rfl, fun te td => rfl⟩
  simp [safe_get, h]

/-- Witness for C8: looking a cash label up in a one-row balance sheet that
lacks it yields the default 0. -/
theorem C8_capital_structure_witness :
    safe_get [("Total Debt", [(3 : ℚ)])] "Cash And Cash Equivalents" 7 = 7 :=
  (C8_capital_structure [("Total Debt", [(3 : ℚ)])] "Cash And Cash Equivalents" 7
    (by rfl)).1

/-- C9 counterexample: at intrinsic value 0 and market price -1 the intrinsic
value exceeds the market price but the computed upside is -100, so over every
non-zero market price the claimed sign equivalence is false. -/
theorem C9_counterexample :
    ¬ (0 < upside_of 0 (-1) ↔ (-1 : ℚ) < 0) := by
  norm_num [upside_of]

/-- C9 (amended): for every non-zero market price the upside equals
(intrinsic - market) / market * 100 exactly, and when the market price is
positive it is positive iff intrinsic exceeds market and negative iff
intrinsic is below market. -/
theorem C9_upside_sign (iv mp : ℚ) :
    (mp ≠ 0 → upside_of iv mp = (iv - mp) / mp * 100) ∧
    (0 < mp →
      (0 < upside_of iv mp ↔ mp < iv) ∧ (upside_of iv mp < 0 ↔ iv < mp)) := by
  refine ⟨fun _ => rfl, fun hmp => ?_⟩
  have hrw : upside_of iv mp = (iv - mp) * 100 / mp := by
    unfold upside_of; ring
  constructor
  · rw [hrw, lt_div_iff₀ hmp]
    constructor <;> intro h <;> nlinarith
  · rw [hrw, div_lt_iff₀ hmp]
    constructor <;> intro h <;> nlinarith

/-- Witness for C9 at intrinsic value 2 and market price 1. -/
theorem C9_upside_sign_witness :
    upside_of 2 1 = (2 - 1) / 1 * 100 ∧ (0 < upside_of 2 1 ↔ (1 : ℚ) < 2) :=
  ⟨(C9_upside_sign 2 1).1 (by norm_num), ((C9_upside_sign 2 1).2 (by norm_num)).1⟩

/-- C10: the upside quotient carries no guard — its unguarded formula holds at
every market price, zero included — while the CAGR, cost-of-debt, WACC-weight,
WACC and per-share divisions each branch to an explicit fallback at a zero
divisor. -/
theorem C10_upside_unguarded :
    (∀ iv mp : ℚ, upside_of iv mp = (iv - mp) / mp * 100) ∧
    (∀ t f : List ℚ, fcf_cagr_of (0 :: t) f = 0) ∧
    (∀ i : ℚ, pretax_cod_of i 0 = 5) ∧
    (∀ d : ℚ, pretax_cod_of 0 d = 5) ∧
    (∀ e : ℚ, equity_weight_of e 0 = 0 ∧ debt_weight_of e 0 = 0) ∧
    (∀ e coe atcod : ℚ, wacc_of e (-e) coe atcod = 1 / 10) ∧
    (∀ eqv : ℚ, intrinsic_value_of eqv 0 = 0) := by
  refine ⟨fun iv mp => rfl, fun t f => ?_, fun i => ?_, fun d => ?_,
    fun e => ⟨?_, ?_⟩, fun e coe atcod => ?_, fun eqv => ?_⟩
  · simp [fcf_cagr_of]
  · simp [pretax_cod_of]
  · simp [pretax_cod_of]
  · simp [equity_weight_of]
  · simp [debt_weight_of]
  · simp [wacc_of, total_capital_of]
  · simp [intrinsic_value_of]

end DCF
